import Mathlib

/-!
Shallow embedding of `src/qr_detector/qr_detector.py`.

The repository's own logic is the retry/preprocessing pipeline: the
rotation sweep of `QRDetector.decode`, the error wrapping of the public
readers, and the live-scan loop `QRDetector.scan_qr` with its layered
fallback, throttling and confirmation counter.  The external
collaborators (cv2 image primitives, the QR decode primitive, the image
codec, the file system) are modelled as an explicit environment of
abstract functions; Python `bytes` values are modelled as abstract byte
strings (carrier: `String`); wall-clock times are modelled as rationals.
-/

deriving instance DecidableEq for Except

namespace QRSpec

/-- A Python exception value: either the module's own `QRDetectorError`
(carrying its message) or any other exception an external collaborator
may raise. -/
inductive PyExc where
  | qrDetectorError (msg : String)
  | other (msg : String)
deriving DecidableEq, Repr

/-- Python `str(e)` on an exception: its message. -/
def PyExc.toMsg : PyExc → String
  | .qrDetectorError m => m
  | .other m => m

/-- The `QRResult` dataclass: the raw decoded bytes of one QR symbol
(bytes modelled as an abstract byte string). -/
structure QRResult where
  data : String
deriving DecidableEq, Repr

/-- The external collaborators used by `QRDetector`, over an abstract
frame type `Img`:

* `size`: `numpy`'s `.size` (number of elements; `0` means an empty array);
* `rotate`, `preprocess`: the cv2 compositions inside `rotate_image` and
  `preprocess_image` (rotation about the centre, and the
  gray/CLAHE/median/Otsu/upscale chain with the fixed scale `2.0`);
* `detect`: `cv2.QRCodeDetector.detectAndDecodeMulti`, returning the
  `decoded_info` strings, or raising;
* `utf8Encode` / `utf8Decode`: Python `str.encode('utf-8')` and
  `bytes.decode('utf-8')` (the latter returns `none` on
  `UnicodeDecodeError`);
* `imdecode` / `imread` / `pathExists`: the image codec and the file
  system (`cv2.imdecode`, `cv2.imread`, `os.path.exists`);
* `roiOf`: the centred 70%-square crop `frame[top:bottom, left:right]`
  computed in `scan_qr`;
* `detailEnhance`, `cvtGray`, `clahe`, `otsu`, `gray2bgr`: the cv2
  primitives used by the live-scan fallback layers. -/
structure Env (Img : Type) where
  size : Img → Nat
  rotate : Img → Int → Img
  preprocess : Img → Img
  detect : Img → Except PyExc (List String)
  utf8Encode : String → String
  utf8Decode : String → Option String
  imdecode : String → Option Img
  pathExists : String → Bool
  imread : String → Option Img
  roiOf : Img → Img
  detailEnhance : Img → Img
  cvtGray : Img → Img
  clahe : Img → Img
  otsu : Img → Img
  gray2bgr : Img → Img

/-- Method `QRResult.decode` (default encoding): decode the stored bytes
back to text, `none` on failure. -/
def QRResult.decodeText {Img : Type} (env : Env Img) (r : QRResult) : Option String :=
  env.utf8Decode r.data

/-- The fixed rotation sweep of `QRDetector.decode`:
`rotation_angles = [0, 45, -45, 90, -90]`. -/
def rotation_angles : List Int := [0, 45, -45, 90, -90]

/-- The image variant tried for one rotation angle:
`preprocess_image(rotate_image(img, angle), scale=2.0)`. -/
def variantImg {Img : Type} (env : Env Img) (img : Img) (a : Int) : Img :=
  env.preprocess (env.rotate img a)

/-- One iteration body of the rotation loop of `QRDetector.decode`:
run `detectAndDecodeMulti` on the preprocessed rotated image and build
`[QRResult(data.encode('utf-8')) for data in decoded_info if data]`
(Python truthiness keeps exactly the non-empty strings). -/
def stepResults {Img : Type} (env : Env Img) (img : Img) (a : Int) :
    Except PyExc (List QRResult) :=
  match env.detect (variantImg env img a) with
  | .error e => .error e
  | .ok decoded_info =>
      .ok ((decoded_info.filter fun s => !s.isEmpty).map fun s =>
        QRResult.mk (env.utf8Encode s))

/-- The rotation loop of `QRDetector.decode`, threading the `all_results`
accumulator: each iteration extends the accumulator with the variant's
results and breaks on the first non-empty batch; an exception anywhere in
the loop propagates out (there is no per-angle handler in the source). -/
def decodeLoop {Img : Type} (env : Env Img) (img : Img) (acc : List QRResult) :
    List Int → Except PyExc (List QRResult)
  | [] => .ok acc
  | a :: rest =>
    match stepResults env img a with
    | .error e => .error e
    | .ok results =>
        if results.isEmpty then decodeLoop env img (acc ++ results) rest
        else .ok (acc ++ results)

/-- The angles the rotation loop actually evaluates on a given frame
(instrumentation of `decodeLoop` with the same recursion structure):
an angle is listed when its variant is submitted to the decode
primitive; the loop stops after an exception or a non-empty batch. -/
def triedAnglesAux {Img : Type} (env : Env Img) (img : Img) : List Int → List Int
  | [] => []
  | a :: rest =>
    match stepResults env img a with
    | .error _ => [a]
    | .ok results =>
        if results.isEmpty then a :: triedAnglesAux env img rest else [a]

/-- The rotation angles `QRDetector.decode` evaluates on a given frame. -/
def triedAngles {Img : Type} (env : Env Img) (img : Img) : List Int :=
  triedAnglesAux env img rotation_angles

/-- The `except Exception` handler of `QRDetector.decode`: any exception
escaping the body is re-raised as
`QRDetectorError(f"เกิดข้อผิดพลาดในการถอดรหัส: {str(e)}")`. -/
def wrapDecodeErr : Except PyExc (List QRResult) → Except PyExc (List QRResult)
  | .ok rs => .ok rs
  | .error e => .error (.qrDetectorError ("เกิดข้อผิดพลาดในการถอดรหัส: " ++ e.toMsg))

/-- Method `QRDetector.decode(img)`: reject a `None` or zero-size frame, then run
the rotation loop; every exception (including the explicit
`QRDetectorError` for an invalid frame) is caught by the single
`except Exception` handler and re-raised wrapped. -/
def decode {Img : Type} (env : Env Img) (img : Option Img) :
    Except PyExc (List QRResult) :=
  wrapDecodeErr
    (match img with
     | none => .error (.qrDetectorError "รูปภาพไม่ถูกต้อง")
     | some i =>
         if env.size i = 0 then .error (.qrDetectorError "รูปภาพไม่ถูกต้อง")
         else decodeLoop env i [] rotation_angles)

/-- The two-stage handler of the readers:
`except QRDetectorError: raise` followed by
`except Exception as e: raise QRDetectorError(ctx + str(e))`. -/
def reraise (ctx : String) : Except PyExc (List QRResult) → Except PyExc (List QRResult)
  | .ok rs => .ok rs
  | .error (.qrDetectorError m) => .error (.qrDetectorError m)
  | .error e => .error (.qrDetectorError (ctx ++ e.toMsg))

/-- Method `QRDetector.read_from_file(file_path)`: missing path and unreadable
image raise `QRDetectorError`; otherwise the frame is handed to
`decode`. -/
def read_from_file {Img : Type} (env : Env Img) (file_path : String) :
    Except PyExc (List QRResult) :=
  reraise "เกิดข้อผิดพลาดในการอ่านไฟล์: "
    (if env.pathExists file_path = false then
       .error (.qrDetectorError ("ไม่พบไฟล์: " ++ file_path))
     else
       match env.imread file_path with
       | none => .error (.qrDetectorError ("ไม่สามารถอ่านไฟล์รูปภาพได้: " ++ file_path))
       | some img => decode env (some img))

/-- Method `QRDetector.read_from_bytes(img_bytes)`: an empty buffer
(Python falsiness of `bytes`) and an undecodable buffer raise
`QRDetectorError`; otherwise the decoded frame is handed to `decode`. -/
def read_from_bytes {Img : Type} (env : Env Img) (img_bytes : String) :
    Except PyExc (List QRResult) :=
  reraise "เกิดข้อผิดพลาดในการอ่านข้อมูลไบต์: "
    (if img_bytes.isEmpty then
       .error (.qrDetectorError "ไม่พบข้อมูลรูปภาพ")
     else
       match env.imdecode img_bytes with
       | none => .error (.qrDetectorError "ไม่สามารถแปลงข้อมูลไบต์เป็นรูปภาพได้")
       | some img => decode env (some img))

/-! ### Live scan controller (`QRDetector.scan_qr`) -/

/-- The live-scan state of `scan_qr`: `last_scan_time`,
`last_detected_qr`, `confirmation_count`, `process_this_frame`.
Wall-clock timestamps are modelled in integer milliseconds (the source
compares differences of `time.time()` values against `0.1` seconds;
only the ordering of timestamps matters to the loop). -/
structure LoopState where
  last_scan_time : Int
  last_detected_qr : Option String
  confirmation_count : Nat
  process_this_frame : Bool
deriving DecidableEq, Repr

/-- The constant `scan_interval = 0.1` seconds, in milliseconds. -/
def scan_interval : Int := 100

/-- The initial live-scan state: `last_scan_time = time.time()` at start,
no tracked candidate, counter `0`, `process_this_frame = True`. -/
def initState (t0 : Int) : LoopState :=
  { last_scan_time := t0
    last_detected_qr := none
    confirmation_count := 0
    process_this_frame := true }

/-- Line 323 of the loop: `process_this_frame = not process_this_frame`,
executed once per iteration. -/
def toggle (st : LoopState) : LoopState :=
  { st with process_this_frame := !st.process_this_frame }

/-- Layer 1 image of a live-scan attempt:
`enhanced_roi = cv2.detailEnhance(roi, ...)` on the centred ROI crop. -/
def layer1Img {Img : Type} (env : Env Img) (frame : Img) : Img :=
  env.detailEnhance (env.roiOf frame)

/-- Layer 2 image: `enhanced_gray` (CLAHE over the grayscale of
`enhanced_roi`) replicated back to three channels. -/
def layer2Img {Img : Type} (env : Env Img) (frame : Img) : Img :=
  env.gray2bgr (env.clahe (env.cvtGray (layer1Img env frame)))

/-- Layer 3 image: `binary_roi` (Otsu threshold of `enhanced_gray`)
replicated back to three channels. -/
def layer3Img {Img : Type} (env : Env Img) (frame : Img) : Img :=
  env.gray2bgr (env.otsu (env.clahe (env.cvtGray (layer1Img env frame))))

/-- Layer 4 image: the full frame converted to gray, Otsu-binarized and
replicated back to three channels (no ROI crop, no detail enhancement). -/
def layer4Img {Img : Type} (env : Env Img) (frame : Img) : Img :=
  env.gray2bgr (env.otsu (env.cvtGray frame))

/-- One guarded layer attempt of `scan_qr`:
`try: results = self.decode(img) except Exception: pass` — on an
exception `results` keeps its previous value. -/
def tryDecode {Img : Type} (env : Env Img) (img : Img)
    (prev : Option (List QRResult)) : Option (List QRResult) :=
  match decode env (some img) with
  | .ok rs => some rs
  | .error _ => prev

/-- Python truthiness of the `results` variable of `scan_qr`:
`None` and the empty list are falsy. -/
def truthyRes : Option (List QRResult) → Bool
  | none => false
  | some rs => !rs.isEmpty

/-- A fallback layer comes up empty when its decode call returns no
payload at all or raises (both leave `results` falsy in the source). -/
def layerFalsy {Img : Type} (env : Env Img) (img : Img) : Prop :=
  decode env (some img) = .ok [] ∨ ∃ e, decode env (some img) = .error e

/-- One due scan attempt of `scan_qr` (the body guarded by
`if roi.size > 0`): the four fallback layers in source order, each run
only while `results` is still falsy, each with its own exception guard.
Returns the final value of `results` (`none` when the ROI is empty or
every layer raised). -/
def scanAttempt {Img : Type} (env : Env Img) (frame : Img) :
    Option (List QRResult) :=
  if env.size (env.roiOf frame) = 0 then none
  else
    let r1 := tryDecode env (layer1Img env frame) none
    let r2 := if truthyRes r1 then r1 else tryDecode env (layer2Img env frame) r1
    let r3 := if truthyRes r2 then r2 else tryDecode env (layer3Img env frame) r2
    let r4 := if truthyRes r3 then r3 else tryDecode env (layer4Img env frame) r3
    r4

/-- The candidate/counter update of `scan_qr` for one decoded text:
a repeat of the tracked candidate increments the counter, anything else
replaces the candidate and restarts the counter at `1`. -/
def observe : Option String × Nat → String → Option String × Nat
  | (last_detected_qr, confirmation_count), d =>
    if last_detected_qr = some d then (last_detected_qr, confirmation_count + 1)
    else (some d, 1)

/-- The `for result in results` loop of `scan_qr`: each payload with a
truthy decoded text updates the candidate/counter state; the loop
returns the confirmed text as soon as the counter reaches `3`, else
falls through with the final state. -/
def processLoop {Img : Type} (env : Env Img) :
    List QRResult → Option String × Nat → (Option String × Nat) × Option String
  | [], st => (st, none)
  | r :: rest, st =>
    match QRResult.decodeText env r with
    | none => processLoop env rest st
    | some d =>
        if d.isEmpty then processLoop env rest st
        else
          let st2 := observe st d
          if 3 ≤ st2.2 then (st2, some d) else processLoop env rest st2

/-- The same confirmation machine driven directly by the stream of
truthy decoded texts (used to relate `processLoop` to the
detection-level behaviour). -/
def confirmLoop : Option String × Nat → List String → (Option String × Nat) × Option String
  | st, [] => (st, none)
  | st, d :: rest =>
    let st2 := observe st d
    if 3 ≤ st2.2 then (st2, some d) else confirmLoop st2 rest

/-- The truthy decoded texts of a result batch, in order. -/
def detTexts {Img : Type} (env : Env Img) (rs : List QRResult) : List String :=
  rs.filterMap fun r =>
    match QRResult.decodeText env r with
    | none => none
    | some d => if d.isEmpty then none else some d

/-- A detection stream alternating between two texts, starting with the
first. -/
def altList (A B : String) : Nat → List String
  | 0 => []
  | n + 1 => A :: altList B A n

/-- The state/result outcome of one due scan attempt of `scan_qr`
(the layered fallback followed by the `for result in results` loop,
starting from the current candidate/counter pair; a falsy `results`
leaves the pair unchanged and confirms nothing). -/
def attemptOutcome {Img : Type} (env : Env Img) (f : Img) (st : LoopState) :
    (Option String × Nat) × Option String :=
  match scanAttempt env f with
  | some rs => processLoop env rs (st.last_detected_qr, st.confirmation_count)
  | none => ((st.last_detected_qr, st.confirmation_count), none)

/-- The `while True` loop of `scan_qr` over a finite stream of
`(timestamp, frame)` pairs (the stream ends when `cap.read` fails).
Returns the confirmed text (if any), the final state, and the number of
scan attempts issued (iterations passing the throttling gate
`current_time - last_scan_time > scan_interval and process_this_frame`).
A passing gate refreshes `last_scan_time`, runs `scanAttempt` and feeds
a truthy result batch to `processLoop`; confirmation returns
immediately, otherwise the alternation flag is toggled and the loop
continues. -/
def runScan {Img : Type} (env : Env Img) (st : LoopState) :
    List (Int × Img) → Option String × LoopState × Nat
  | [] => (none, st, 0)
  | (t, f) :: rest =>
    if scan_interval < t - st.last_scan_time ∧ st.process_this_frame = true then
      let st1 : LoopState := { st with last_scan_time := t }
      let pr := attemptOutcome env f st1
      let st2 : LoopState :=
        { st1 with last_detected_qr := pr.1.1, confirmation_count := pr.1.2 }
      match pr.2 with
      | some s => (some s, st2, 1)
      | none =>
          let out := runScan env (toggle st2) rest
          (out.1, out.2.1, out.2.2 + 1)
    else
      runScan env (toggle st) rest

/-! ### Concrete environments used to evaluate the embedding -/

/-- A concrete environment over integer-coded frames: the geometric and
photometric collaborators are injective integer codings (so distinct
pipeline stages produce distinguishable frames), the byte codec is the
identity coding, and the decode primitive is the supplied function. -/
def mkEnv (detect : Int → Except PyExc (List String)) : Env Int :=
  { size := fun _ => 1
    rotate := fun i a => 100 * i + a
    preprocess := id
    detect := detect
    utf8Encode := id
    utf8Decode := fun s => some s
    imdecode := fun b => if b = "bad" then none else some 0
    pathExists := fun p => p != "missing"
    imread := fun p => if p = "noimg" then none else some 0
    roiOf := fun i => i + 1
    detailEnhance := fun i => i + 2
    cvtGray := fun i => i + 3
    clahe := fun i => i + 4
    otsu := fun i => i + 5
    gray2bgr := fun i => i + 6 }

/-- Environment where only the 45°-variant of the raw frame `0` decodes. -/
def envA : Env Int :=
  mkEnv fun v => if v = 45 then .ok ["HI", ""] else .ok []

/-- Environment where the decode primitive raises on the 45°-variant of
frame `0` and would succeed on its 90°-variant. -/
def envB : Env Int :=
  mkEnv fun v =>
    if v = 45 then .error (.other "boom")
    else if v = 90 then .ok ["HI"] else .ok []

/-- Environment where only the 45°-rotation of the live layer-1 image of
frame `0` (integer code `345`) decodes. -/
def envC : Env Int :=
  mkEnv fun v => if v = 345 then .ok ["R"] else .ok []

/-- Environment whose decode primitive never finds a symbol (it returns
a lone empty string, which the caller filters out). -/
def envD : Env Int :=
  mkEnv fun _ => .ok [""]

/-- Environment where the unrotated variant of frame `0` yields one
empty and one non-empty string. -/
def envE : Env Int :=
  mkEnv fun v => if v = 0 then .ok ["", "X"] else .ok []

/-- Environment whose decode primitive always raises a non-module
exception. -/
def envF : Env Int :=
  mkEnv fun _ => .error (.other "x")

/-- Environment whose decode primitive always returns the single text
`"A"`. -/
def envG : Env Int :=
  mkEnv fun _ => .ok ["A"]

/-! ### Helper lemmas about the single-shot pipeline -/

/-- A prefix of angles whose variants all decode to an empty batch is
passed over by the rotation loop without changing the accumulator. -/
theorem decodeLoop_skip {Img : Type} (env : Env Img) (img : Img) :
    ∀ (pre : List Int) (acc : List QRResult) (l : List Int),
      (∀ b ∈ pre, stepResults env img b = .ok []) →
      decodeLoop env img acc (pre ++ l) = decodeLoop env img acc l
  | [], _, _, _ => rfl
  | a :: pre, acc, l, h => by
      have ha : stepResults env img a = .ok [] := h a (List.mem_cons_self a pre)
      have h2 : ∀ b ∈ pre, stepResults env img b = .ok [] :=
        fun b hb => h b (List.mem_cons_of_mem a hb)
      simp [decodeLoop, ha, decodeLoop_skip env img pre acc l h2]

/-- A prefix of angles whose variants all decode to an empty batch is
fully evaluated before the rest of the sweep. -/
theorem triedAnglesAux_skip {Img : Type} (env : Env Img) (img : Img) :
    ∀ (pre l : List Int),
      (∀ b ∈ pre, stepResults env img b = .ok []) →
      triedAnglesAux env img (pre ++ l) = pre ++ triedAnglesAux env img l
  | [], _, _ => rfl
  | a :: pre, l, h => by
      have ha : stepResults env img a = .ok [] := h a (List.mem_cons_self a pre)
      have h2 : ∀ b ∈ pre, stepResults env img b = .ok [] :=
        fun b hb => h b (List.mem_cons_of_mem a hb)
      simp [triedAnglesAux, ha, triedAnglesAux_skip env img pre l h2]

/-- A successful result of the exception wrapper comes from a successful
body. -/
theorem wrapDecodeErr_ok {rs : List QRResult} :
    ∀ {x : Except PyExc (List QRResult)}, wrapDecodeErr x = .ok rs → x = .ok rs
  | .ok _, h => by simpa [wrapDecodeErr] using h
  | .error _, h => by simp [wrapDecodeErr] at h

/-- Every error leaving the exception wrapper of `decode` is a
`QRDetectorError`. -/
theorem wrapDecodeErr_shape :
    ∀ {x : Except PyExc (List QRResult)} {e : PyExc},
      wrapDecodeErr x = .error e → ∃ m, e = .qrDetectorError m
  | .ok _, _, h => by simp [wrapDecodeErr] at h
  | .error e0, e, h => by
      simp only [wrapDecodeErr, Except.error.injEq] at h
      exact ⟨_, h.symm⟩

/-- Every error leaving the two-stage handler of the readers is a
`QRDetectorError`. -/
theorem reraise_shape (ctx : String) :
    ∀ {x : Except PyExc (List QRResult)} {e : PyExc},
      reraise ctx x = .error e → ∃ m, e = .qrDetectorError m
  | .ok _, _, h => by simp [reraise] at h
  | .error (.qrDetectorError m), e, h => by
      simp only [reraise, Except.error.injEq] at h
      exact ⟨m, h.symm⟩
  | .error (.other m), e, h => by
      simp only [reraise, Except.error.injEq] at h
      exact ⟨_, h.symm⟩

/-- The two-stage handler is the identity on results whose errors are
already `QRDetectorError` (the `except QRDetectorError: raise` stage). -/
theorem reraise_of_shape (ctx : String) {x : Except PyExc (List QRResult)}
    (h : ∀ e, x = .error e → ∃ m, e = .qrDetectorError m) : reraise ctx x = x := by
  match x with
  | .ok _ => rfl
  | .error e =>
      obtain ⟨m, rfl⟩ := h e rfl
      rfl

/-- Every error raised by `decode` is a `QRDetectorError`. -/
theorem decode_shape {Img : Type} (env : Env Img) (img : Option Img) {e : PyExc}
    (h : decode env img = .error e) : ∃ m, e = .qrDetectorError m := by
  unfold decode at h
  exact wrapDecodeErr_shape h

/-! ### Claims about the single-shot pipeline -/

/-- Claim C1: for every input frame, the single-shot `decode` tries the
rotation variants in the fixed order `[0°, 45°, −45°, 90°, −90°]` and
stops at the first variant whose decode yields at least one non-empty
payload: when every earlier angle yields no payload and angle `a` yields
the non-empty batch `rs`, the returned sequence is exactly the payloads
of that first successful variant, and no angle after `a` is evaluated. -/
theorem claim_C1 {Img : Type} (env : Env Img) (img : Img)
    (pre post : List Int) (a : Int) (rs : List QRResult)
    (hsz : env.size img ≠ 0)
    (hsplit : rotation_angles = pre ++ a :: post)
    (hpre : ∀ b ∈ pre, stepResults env img b = .ok [])
    (ha : stepResults env img a = .ok rs) (hne : rs ≠ []) :
    decode env (some img) = .ok rs ∧ triedAngles env img = pre ++ [a] := by
  cases rs with
  | nil => exact absurd rfl hne
  | cons r rs' =>
      have h1 : decodeLoop env img [] rotation_angles = .ok (r :: rs') := by
        rw [hsplit, decodeLoop_skip env img pre [] (a :: post) hpre]
        simp [decodeLoop, ha]
      constructor
      · simp [decode, hsz, h1, wrapDecodeErr]
      · rw [triedAngles, hsplit, triedAnglesAux_skip env img pre (a :: post) hpre]
        simp [triedAnglesAux, ha]

/-- Witness for C1: in `envA` the 0° variant of frame `0` decodes to
nothing and the 45° variant decodes to `"HI"` (plus a filtered empty
string); `decode` returns that payload and evaluates no further angle. -/
theorem claim_C1_witness :
    decode envA (some 0) = .ok [QRResult.mk "HI"] ∧ triedAngles envA 0 = [0, 45] :=
  claim_C1 envA 0 [0] [-45, 90, -90] 45 [QRResult.mk "HI"] (by decide) (by decide)
    (by decide) (by decide) (by decide)

/-- Claim C7: for every valid frame in which no rotation variant yields
a payload, the single-shot scan returns an empty sequence without an
error, after having evaluated all five rotation variants. -/
theorem claim_C7 {Img : Type} (env : Env Img) (img : Img)
    (hsz : env.size img ≠ 0)
    (h : ∀ a ∈ rotation_angles, stepResults env img a = .ok []) :
    decode env (some img) = .ok [] ∧ triedAngles env img = rotation_angles := by
  have h1 : decodeLoop env img [] rotation_angles = .ok [] := by
    have h2 := decodeLoop_skip env img rotation_angles [] [] h
    simpa [decodeLoop] using h2
  constructor
  · simp [decode, hsz, h1, wrapDecodeErr]
  · have h3 := triedAnglesAux_skip env img rotation_angles [] h
    simpa [triedAngles, triedAnglesAux] using h3

/-- Witness for C7: in `envD` the decode primitive always reports a lone
empty string, which is filtered out; the scan returns `[]` after the
full sweep. -/
theorem claim_C7_witness :
    decode envD (some 0) = .ok [] ∧ triedAngles envD 0 = rotation_angles :=
  claim_C7 envD 0 (by decide) (by decide)

/-- Counterexample for C2: in `envB` the decode primitive raises on the
45° variant of frame `0` while the 90° variant would decode to `"HI"`;
the single-shot scan nevertheless aborts with a `QRDetectorError`
instead of treating the failed variant as "found nothing" and trying
the remaining rotations. -/
theorem claim_C2_counterexample :
    decode envB (some 0) = .error (.qrDetectorError "เกิดข้อผิดพลาดในการถอดรหัส: boom") ∧
    stepResults envB 0 90 = .ok [QRResult.mk "HI"] := by decide

/-- Claim C2 (amended): within one single-shot scan, a decode-primitive
failure on any rotation variant is caught only by the scan-level handler
and re-raised as a `QRDetectorError`, aborting the whole scan; the
remaining rotation variants are not tried. -/
theorem claim_C2 {Img : Type} (env : Env Img) (img : Img)
    (pre post : List Int) (a : Int) (e : PyExc)
    (hsz : env.size img ≠ 0)
    (hsplit : rotation_angles = pre ++ a :: post)
    (hpre : ∀ b ∈ pre, stepResults env img b = .ok [])
    (ha : env.detect (variantImg env img a) = .error e) :
    decode env (some img) =
      .error (.qrDetectorError ("เกิดข้อผิดพลาดในการถอดรหัส: " ++ e.toMsg)) ∧
    triedAngles env img = pre ++ [a] := by
  have hstep : stepResults env img a = .error e := by simp [stepResults, ha]
  have h1 : decodeLoop env img [] rotation_angles = .error e := by
    rw [hsplit, decodeLoop_skip env img pre [] (a :: post) hpre]
    simp [decodeLoop, hstep]
  constructor
  · simp [decode, hsz, h1, wrapDecodeErr]
  · rw [triedAngles, hsplit, triedAnglesAux_skip env img pre (a :: post) hpre]
    simp [triedAnglesAux, hstep]

/-- Witness for the amended C2 at `envB`: the failure on the 45° variant
aborts the scan with the wrapped message. -/
theorem claim_C2_witness :
    decode envB (some 0) =
      .error (.qrDetectorError ("เกิดข้อผิดพลาดในการถอดรหัส: " ++ (PyExc.other "boom").toMsg)) ∧
    triedAngles envB 0 = [0, 45] :=
  claim_C2 envB 0 [0] [-45, 90, -90] 45 (.other "boom") (by decide) (by decide)
    (by decide) (by decide)

/-- Every member of the rotation loop's successful output either comes
from the accumulator already or was built from a non-empty decoded
string of the decode primitive. -/
theorem decodeLoop_mem {Img : Type} (env : Env Img) (img : Img) :
    ∀ (l : List Int) (acc rs : List QRResult),
      decodeLoop env img acc l = .ok rs →
      ∀ r ∈ rs, r ∈ acc ∨ ∃ s, s ≠ "" ∧ r = QRResult.mk (env.utf8Encode s)
  | [], acc, rs, h, r, hr => by
      simp only [decodeLoop, Except.ok.injEq] at h
      subst h
      exact Or.inl hr
  | a :: l, acc, rs, h, r, hr => by
      rcases hs : stepResults env img a with e | results
      · rw [decodeLoop, hs] at h
        exact absurd h (by simp)
      · have hres : ∀ r2 ∈ results, ∃ s, s ≠ "" ∧ r2 = QRResult.mk (env.utf8Encode s) := by
          rcases hd : env.detect (variantImg env img a) with e2 | infos
          · rw [stepResults, hd] at hs
            exact absurd hs (by simp)
          · rw [stepResults, hd] at hs
            have hr2 : results = (infos.filter fun s => !s.isEmpty).map fun s =>
                QRResult.mk (env.utf8Encode s) := by
              simpa using hs.symm
            subst hr2
            intro r2 hr2
            rcases List.mem_map.mp hr2 with ⟨s, hsmem, rfl⟩
            have hflt := (List.mem_filter.mp hsmem).2
            refine ⟨s, ?_, rfl⟩
            intro hs0
            subst hs0
            exact absurd hflt (by decide)
        rw [decodeLoop, hs] at h
        have h3 : (if results.isEmpty then decodeLoop env img (acc ++ results) l
            else Except.ok (acc ++ results)) = Except.ok rs := h
        by_cases he : results.isEmpty
        · rw [if_pos he] at h3
          rcases decodeLoop_mem env img l (acc ++ results) rs h3 r hr with hmem | hex
          · rcases List.mem_append.mp hmem with h1 | h2
            · exact Or.inl h1
            · exact Or.inr (hres r h2)
          · exact Or.inr hex
        · rw [if_neg he] at h3
          have heq : acc ++ results = rs := by simpa using h3
          subst heq
          rcases List.mem_append.mp hr with h1 | h2
          · exact Or.inl h1
          · exact Or.inr (hres r h2)

/-- Claim C9: every `QRResult` in the sequence returned by the
single-shot `decode` was constructed from a non-empty decoded string
(empty decodes are filtered out before entering the result sequence),
so no payload's underlying decoded string is empty. -/
theorem claim_C9 {Img : Type} (env : Env Img)
    (hrt : ∀ s, env.utf8Decode (env.utf8Encode s) = some s)
    (img : Option Img) (rs : List QRResult)
    (h : decode env img = .ok rs) :
    ∀ r ∈ rs, (∃ s, s ≠ "" ∧ r.data = env.utf8Encode s) ∧
      QRResult.decodeText env r ≠ some "" := by
  cases img with
  | none => simp [decode, wrapDecodeErr] at h
  | some i =>
      by_cases hsz : env.size i = 0
      · simp [decode, hsz, wrapDecodeErr] at h
      · have h2 : wrapDecodeErr (decodeLoop env i [] rotation_angles) = .ok rs := by
          simpa [decode, hsz] using h
        have hloop := wrapDecodeErr_ok h2
        intro r hr
        rcases decodeLoop_mem env i rotation_angles [] rs hloop r hr with habs | ⟨s, hs0, rfl⟩
        · simp at habs
        · refine ⟨⟨s, hs0, rfl⟩, ?_⟩
          simp only [QRResult.decodeText, hrt s, ne_eq, Option.some.injEq]
          exact hs0

/-- Witness for C9 at `envE`, where the decode primitive reports one
empty and one non-empty string on the unrotated variant: the single
returned payload stems from the non-empty string `"X"`. -/
theorem claim_C9_witness :
    (∃ s, s ≠ "" ∧ (QRResult.mk "X").data = envE.utf8Encode s) ∧
    QRResult.decodeText envE (QRResult.mk "X") ≠ some "" :=
  claim_C9 envE (fun _ => rfl) (some 0) [QRResult.mk "X"] (by decide)
    (QRResult.mk "X") (by decide)

/-- Claim C6: `read_from_bytes` fails with the empty-input
`QRDetectorError` on every empty buffer, fails with the
cannot-decode-image `QRDetectorError` when the codec cannot parse the
buffer, and otherwise hands the decoded frame to `decode` and returns
its result unchanged. -/
theorem claim_C6 {Img : Type} (env : Env Img) :
    (∀ buf : String, buf.isEmpty = true →
        read_from_bytes env buf = .error (.qrDetectorError "ไม่พบข้อมูลรูปภาพ")) ∧
    (∀ buf : String, buf.isEmpty = false → env.imdecode buf = none →
        read_from_bytes env buf = .error (.qrDetectorError "ไม่สามารถแปลงข้อมูลไบต์เป็นรูปภาพได้")) ∧
    (∀ (buf : String) (img : Img), buf.isEmpty = false → env.imdecode buf = some img →
        read_from_bytes env buf = decode env (some img)) := by
  refine ⟨?_, ?_, ?_⟩
  · intro buf hb
    simp [read_from_bytes, hb, reraise]
  · intro buf hb hd
    simp [read_from_bytes, hb, hd, reraise]
  · intro buf img hb hd
    have h1 : read_from_bytes env buf =
        reraise "เกิดข้อผิดพลาดในการอ่านข้อมูลไบต์: " (decode env (some img)) := by
      simp [read_from_bytes, hb, hd]
    rw [h1]
    exact reraise_of_shape _ (fun e he => decode_shape env (some img) he)

/-- Witness for C6 at `envA`: the empty buffer, an unparseable buffer
and a parseable buffer. -/
theorem claim_C6_witness :
    (read_from_bytes envA "" = .error (.qrDetectorError "ไม่พบข้อมูลรูปภาพ")) ∧
    (read_from_bytes envA "bad" = .error (.qrDetectorError "ไม่สามารถแปลงข้อมูลไบต์เป็นรูปภาพได้")) ∧
    (read_from_bytes envA "img" = decode envA (some 0)) :=
  ⟨(claim_C6 envA).1 "" (by decide),
   (claim_C6 envA).2.1 "bad" (by decide) (by decide),
   (claim_C6 envA).2.2 "img" 0 (by decide) (by decide)⟩

/-- Claim C10: every error raised by the public operations `decode`,
`read_from_file` and `read_from_bytes` is of the single exception type
`QRDetectorError` — any internal failure is caught and re-raised
wrapped, so error kinds are distinguishable only by message. -/
theorem claim_C10 {Img : Type} (env : Env Img) :
    (∀ (img : Option Img) (e : PyExc),
        decode env img = .error e → ∃ m, e = .qrDetectorError m) ∧
    (∀ (p : String) (e : PyExc),
        read_from_file env p = .error e → ∃ m, e = .qrDetectorError m) ∧
    (∀ (b : String) (e : PyExc),
        read_from_bytes env b = .error e → ∃ m, e = .qrDetectorError m) := by
  refine ⟨fun img e h => decode_shape env img h, fun p e h => ?_, fun b e h => ?_⟩
  · unfold read_from_file at h
    exact reraise_shape _ h
  · unfold read_from_bytes at h
    exact reraise_shape _ h

/-- Witness for C10 at `envF` (whose decode primitive always raises a
non-module exception): all three public operations surface a
`QRDetectorError`. -/
theorem claim_C10_witness :
    (∃ m, PyExc.qrDetectorError "เกิดข้อผิดพลาดในการถอดรหัส: รูปภาพไม่ถูกต้อง" = .qrDetectorError m) ∧
    (∃ m, PyExc.qrDetectorError "ไม่พบไฟล์: missing" = .qrDetectorError m) ∧
    (∃ m, PyExc.qrDetectorError "ไม่พบข้อมูลรูปภาพ" = .qrDetectorError m) :=
  ⟨(claim_C10 envF).1 none _ (by decide),
   (claim_C10 envF).2.1 "missing" _ (by decide),
   (claim_C10 envF).2.2 "" _ (by decide)⟩

/-! ### Helper lemmas about the live-scan controller -/

/-- Repeat of the tracked candidate: the counter increments. -/
theorem observe_same (lq : Option String) (c : Nat) (d : String) (h : lq = some d) :
    observe (lq, c) d = (lq, c + 1) := by
  simp [observe, h]

/-- A text different from the tracked candidate replaces it and restarts
the counter at 1. -/
theorem observe_diff (lq : Option String) (c : Nat) (d : String) (h : lq ≠ some d) :
    observe (lq, c) d = (some d, 1) := by
  simp [observe, h]

/-- The result-batch loop of `scan_qr` is the text-level confirmation
machine run on the batch's truthy decoded texts, in order. -/
theorem processLoop_eq_confirmLoop {Img : Type} (env : Env Img) :
    ∀ (rs : List QRResult) (st : Option String × Nat),
      processLoop env rs st = confirmLoop st (detTexts env rs)
  | [], _ => rfl
  | r :: rest, st => by
      rcases hd : QRResult.decodeText env r with _ | d
      · simp [processLoop, detTexts, List.filterMap_cons, hd,
          processLoop_eq_confirmLoop env rest st]
      · by_cases he : d.isEmpty
        · simp [processLoop, detTexts, List.filterMap_cons, hd, he,
            processLoop_eq_confirmLoop env rest st]
        · simp [processLoop, detTexts, List.filterMap_cons, hd, he, confirmLoop,
            processLoop_eq_confirmLoop env rest (observe st d)]

/-- When the confirmation machine confirms, the counter has just reached
exactly 3 (from any starting counter at most 2). -/
theorem confirmLoop_confirm_count :
    ∀ (ds : List String) (st p : Option String × Nat) (d : String),
      confirmLoop st ds = (p, some d) → st.2 ≤ 2 → p.2 = 3
  | [], _, _, _, h, _ => by simp [confirmLoop] at h
  | d0 :: ds, ⟨lq, c⟩, p, d, h, hle => by
      by_cases heq : lq = some d0
      · rw [confirmLoop, observe_same lq c d0 heq] at h
        by_cases h3 : 3 ≤ c + 1
        · rw [if_pos h3] at h
          injection h with h1 h2
          subst h1
          show c + 1 = 3
          omega
        · rw [if_neg h3] at h
          exact confirmLoop_confirm_count ds _ p d h (by omega)
      · rw [confirmLoop, observe_diff lq c d0 heq] at h
        rw [if_neg (by omega : ¬ 3 ≤ 1)] at h
        exact confirmLoop_confirm_count ds _ p d h (by omega)

/-- When the confirmation machine falls through without confirming, the
counter stays at most 2. -/
theorem confirmLoop_none_count :
    ∀ (ds : List String) (st p : Option String × Nat),
      confirmLoop st ds = (p, none) → st.2 ≤ 2 → p.2 ≤ 2
  | [], st, p, h, hle => by
      simp only [confirmLoop, Prod.mk.injEq] at h
      exact h.1 ▸ hle
  | d0 :: ds, ⟨lq, c⟩, p, h, hle => by
      by_cases heq : lq = some d0
      · rw [confirmLoop, observe_same lq c d0 heq] at h
        by_cases h3 : 3 ≤ c + 1
        · rw [if_pos h3] at h
          exact absurd h (by simp)
        · rw [if_neg h3] at h
          exact confirmLoop_none_count ds _ p h (by omega)
      · rw [confirmLoop, observe_diff lq c d0 heq] at h
        rw [if_neg (by omega : ¬ 3 ≤ 1)] at h
        exact confirmLoop_none_count ds _ p h (by omega)

/-- A detection stream alternating between two distinct texts never
confirms: every step lands in the replace-and-reset branch. -/
theorem confirmLoop_alt :
    ∀ (n : Nat) (A B : String) (st : Option String × Nat),
      A ≠ B → st.1 ≠ some A →
      (confirmLoop st (altList A B n)).2 = none
  | 0, _, _, _, _, _ => rfl
  | n + 1, A, B, ⟨lq, c⟩, hAB, hlq => by
      rw [altList, confirmLoop, observe_diff lq c A hlq]
      rw [if_neg (by omega : ¬ 3 ≤ 1)]
      exact confirmLoop_alt n B A (some A, 1) (Ne.symm hAB)
        (fun h => hAB (Option.some.inj h))

/-- An iteration whose throttling gate is closed issues no scan attempt:
it only toggles the alternation flag. -/
theorem runScan_gate_closed {Img : Type} (env : Env Img) (st : LoopState)
    (t : Int) (f : Img) (rest : List (Int × Img))
    (hg : ¬ (scan_interval < t - st.last_scan_time ∧ st.process_this_frame = true)) :
    runScan env st ((t, f) :: rest) = runScan env (toggle st) rest := by
  simp [runScan, hg]

/-- An iteration whose throttling gate is open refreshes
`last_scan_time`, runs the attempt, and either returns the confirmed
text or toggles the flag and continues. -/
theorem runScan_gate_open {Img : Type} (env : Env Img) (st : LoopState)
    (t : Int) (f : Img) (rest : List (Int × Img))
    (hg : scan_interval < t - st.last_scan_time ∧ st.process_this_frame = true)
    (lq : Option String) (c : Nat) (oret : Option String)
    (hpr : attemptOutcome env f { st with last_scan_time := t } = ((lq, c), oret)) :
    runScan env st ((t, f) :: rest) =
      (match oret with
       | some s => (some s, (⟨t, lq, c, st.process_this_frame⟩ : LoopState), 1)
       | none =>
           let out := runScan env (toggle ⟨t, lq, c, st.process_this_frame⟩) rest
           (out.1, out.2.1, out.2.2 + 1)) := by
  simp only [runScan, if_pos hg, hpr]
  cases oret <;> rfl

/-- A confirming scan attempt leaves the counter at exactly 3. -/
theorem attemptOutcome_confirm {Img : Type} (env : Env Img) (f : Img) (st : LoopState)
    (lq : Option String) (c : Nat) (d : String)
    (h : attemptOutcome env f st = ((lq, c), some d))
    (hle : st.confirmation_count ≤ 2) : c = 3 := by
  unfold attemptOutcome at h
  rcases hs : scanAttempt env f with _ | rs
  · rw [hs] at h
    exact absurd h (by simp)
  · rw [hs] at h
    have h2 : processLoop env rs (st.last_detected_qr, st.confirmation_count) =
        ((lq, c), some d) := h
    rw [processLoop_eq_confirmLoop] at h2
    exact confirmLoop_confirm_count _ _ (lq, c) d h2 hle

/-- A non-confirming scan attempt leaves the counter at most 2. -/
theorem attemptOutcome_none {Img : Type} (env : Env Img) (f : Img) (st : LoopState)
    (lq : Option String) (c : Nat)
    (h : attemptOutcome env f st = ((lq, c), none))
    (hle : st.confirmation_count ≤ 2) : c ≤ 2 := by
  unfold attemptOutcome at h
  rcases hs : scanAttempt env f with _ | rs
  · rw [hs] at h
    have h2 : ((st.last_detected_qr, st.confirmation_count), (none : Option String)) =
        ((lq, c), none) := h
    simp only [Prod.mk.injEq] at h2
    exact h2.1.2 ▸ hle
  · rw [hs] at h
    have h2 : processLoop env rs (st.last_detected_qr, st.confirmation_count) =
        ((lq, c), none) := h
    rw [processLoop_eq_confirmLoop] at h2
    exact confirmLoop_none_count _ _ (lq, c) h2 hle

/-- When the controller returns a confirmed text, the counter of the
final state is exactly 3 (starting from any counter at most 2). -/
theorem runScan_confirm_count {Img : Type} (env : Env Img) :
    ∀ (frames : List (Int × Img)) (st : LoopState) (s : String)
      (stF : LoopState) (n : Nat),
      runScan env st frames = (some s, stF, n) →
      st.confirmation_count ≤ 2 → stF.confirmation_count = 3
  | [], st, s, stF, n, h, _ => by simp [runScan] at h
  | (t, f) :: rest, st, s, stF, n, h, hle => by
      by_cases hg : scan_interval < t - st.last_scan_time ∧ st.process_this_frame = true
      · rcases hpr : attemptOutcome env f { st with last_scan_time := t } with ⟨⟨lq, c⟩, oret⟩
        rw [runScan_gate_open env st t f rest hg lq c oret hpr] at h
        cases oret with
        | some d =>
            have hc : c = 3 := attemptOutcome_confirm env f _ lq c d hpr hle
            simp only [Prod.mk.injEq] at h
            rw [← h.2.1]
            exact hc
        | none =>
            have hc : c ≤ 2 := attemptOutcome_none env f _ lq c hpr hle
            simp only [Prod.mk.injEq] at h
            have hrec : runScan env (toggle ⟨t, lq, c, st.process_this_frame⟩) rest =
                (some s, stF,
                  (runScan env (toggle ⟨t, lq, c, st.process_this_frame⟩) rest).2.2) := by
              rw [← h.1, ← h.2.1]
            exact runScan_confirm_count env rest _ s stF _ hrec hc
      · rw [runScan_gate_closed env st t f rest hg] at h
        exact runScan_confirm_count env rest (toggle st) s stF n h hle

/-- When no frame's timestamp clears the throttling interval relative to
the held `last_scan_time`, no scan attempt is ever issued. -/
theorem runScan_attempts_zero {Img : Type} (env : Env Img) :
    ∀ (frames : List (Int × Img)) (st : LoopState),
      (∀ p ∈ frames, ¬ scan_interval < p.1 - st.last_scan_time) →
      (runScan env st frames).2.2 = 0
  | [], _, _ => rfl
  | (t, f) :: rest, st, h => by
      have hg : ¬ (scan_interval < t - st.last_scan_time ∧ st.process_this_frame = true) :=
        fun hc => h (t, f) (List.mem_cons_self _ _) hc.1
      rw [runScan_gate_closed env st t f rest hg]
      exact runScan_attempts_zero env rest (toggle st)
        (fun p hp => h p (List.mem_cons_of_mem _ hp))

/-- Across any burst of frames whose timestamps all lie within one
throttling interval of each other, at most one scan attempt is issued:
the first attempt refreshes `last_scan_time`, closing the gate for the
rest of the burst. -/
theorem runScan_attempts_burst {Img : Type} (env : Env Img) :
    ∀ (frames : List (Int × Img)) (st : LoopState),
      (∀ p ∈ frames, ∀ q ∈ frames, p.1 - q.1 < scan_interval) →
      (runScan env st frames).2.2 ≤ 1
  | [], st, _ => by simp [runScan]
  | (t, f) :: rest, st, h => by
      by_cases hg : scan_interval < t - st.last_scan_time ∧ st.process_this_frame = true
      · rcases hpr : attemptOutcome env f { st with last_scan_time := t } with ⟨⟨lq, c⟩, oret⟩
        rw [runScan_gate_open env st t f rest hg lq c oret hpr]
        cases oret with
        | some d => simp
        | none =>
            have hz : (runScan env (toggle ⟨t, lq, c, st.process_this_frame⟩) rest).2.2 = 0 := by
              apply runScan_attempts_zero env
              intro p hp
              have h1 := h p (List.mem_cons_of_mem _ hp) (t, f) (List.mem_cons_self _ _)
              show ¬ scan_interval < p.1 - t
              omega
            simp [hz]
      · rw [runScan_gate_closed env st t f rest hg]
        exact runScan_attempts_burst env rest (toggle st)
          (fun p hp q hq => h p (List.mem_cons_of_mem _ hp) q (List.mem_cons_of_mem _ hq))

/-! ### Claims about the live-scan controller -/

/-- Claim C3: in the live scan loop, a detected text equal to the
previously tracked candidate increments the consecutive-match counter, a
different text replaces the candidate and resets the counter to 1, the
controller confirms exactly when the counter reaches the threshold 3
(the final state of a confirming run always carries counter 3), and a
detection stream alternating between two different texts never reaches
confirmation. -/
theorem claim_C3 :
    (∀ (c : Nat) (d : String), observe (some d, c) d = (some d, c + 1)) ∧
    (∀ (lq : Option String) (c : Nat) (d : String),
        lq ≠ some d → observe (lq, c) d = (some d, 1)) ∧
    (∀ (Img : Type) (env : Env Img) (t0 : Int) (frames : List (Int × Img))
        (s : String) (stF : LoopState) (n : Nat),
        runScan env (initState t0) frames = (some s, stF, n) →
        stF.confirmation_count = 3) ∧
    (∀ A B : String, A ≠ B →
        ∀ n : Nat, (confirmLoop (none, 0) (altList A B n)).2 = none) :=
  ⟨fun c d => observe_same (some d) c d rfl,
   fun lq c d h => observe_diff lq c d h,
   fun _ env t0 frames s stF n h =>
     runScan_confirm_count env frames (initState t0) s stF n h (by simp [initState]),
   fun A B hAB n =>
     confirmLoop_alt n A B (none, 0) hAB (fun h => Option.noConfusion h)⟩

/-- Witness for C3: concrete single-step updates, a concrete confirming
run in `envG` (the primitive always reads `"A"`; frames at 1s spacing
confirm on the third attempt, at the fifth frame because of the
alternation flag), and a concrete alternating stream of length 6. -/
theorem claim_C3_witness :
    (observe (some "A", 1) "A" = (some "A", 2)) ∧
    (observe (some "A", 2) "B" = (some "B", 1)) ∧
    ((⟨5000, some "A", 3, true⟩ : LoopState).confirmation_count = 3) ∧
    ((confirmLoop (none, 0) (altList "A" "B" 6)).2 = none) :=
  ⟨claim_C3.1 1 "A",
   claim_C3.2.1 (some "A") 2 "B" (by decide),
   claim_C3.2.2.1 Int envG 0 [(1000, 0), (2000, 0), (3000, 0), (4000, 0), (5000, 0)]
     "A" ⟨5000, some "A", 3, true⟩ 3 (by decide),
   claim_C3.2.2.2 "A" "B" (by decide) 6⟩

/-- Claim C5: a decode attempt is issued only when the elapsed time since
the last attempt is at least the scan interval (the gate in fact demands
strictly more) and the alternation flag permits it — a closed gate only
toggles the flag — and across 10 frames all delivered within less than
the scan interval of each other, at most one decode attempt is issued. -/
theorem claim_C5 {Img : Type} (env : Env Img) :
    (∀ (st : LoopState) (t : Int),
        scan_interval < t - st.last_scan_time ∧ st.process_this_frame = true →
        scan_interval ≤ t - st.last_scan_time ∧ st.process_this_frame = true) ∧
    (∀ (st : LoopState) (t : Int) (f : Img) (rest : List (Int × Img)),
        ¬ (scan_interval < t - st.last_scan_time ∧ st.process_this_frame = true) →
        runScan env st ((t, f) :: rest) = runScan env (toggle st) rest) ∧
    (∀ (t0 : Int) (frames : List (Int × Img)),
        frames.length = 10 →
        (∀ p ∈ frames, ∀ q ∈ frames, p.1 - q.1 < scan_interval) →
        (runScan env (initState t0) frames).2.2 ≤ 1) :=
  ⟨fun _ _ h => ⟨le_of_lt h.1, h.2⟩,
   fun st t f rest hg => runScan_gate_closed env st t f rest hg,
   fun t0 frames _ h => runScan_attempts_burst env frames (initState t0) h⟩

/-- Witness for C5 in `envD`: an open gate at 1s, a closed gate at the
very start, and a burst of 10 simultaneous frames issuing no attempt. -/
theorem claim_C5_witness :
    (scan_interval ≤ (1000 : Int) - (initState 0).last_scan_time ∧
      (initState 0).process_this_frame = true) ∧
    (runScan envD (initState 0) [((0 : Int), (0 : Int))] =
      runScan envD (toggle (initState 0)) []) ∧
    ((runScan envD (initState 0) (List.replicate 10 ((0 : Int), (0 : Int)))).2.2 ≤ 1) :=
  ⟨(claim_C5 envD).1 (initState 0) 1000 (by decide),
   (claim_C5 envD).2.1 (initState 0) 0 0 [] (by decide),
   (claim_C5 envD).2.2 0 (List.replicate 10 (0, 0)) (by decide) (by decide)⟩

/-- Counterexample for C8: a live scan attempt whose result set holds
the two payloads `"A"` and `"B"` does not behave like one holding only
the first payload — the loop walks the whole batch, so the tracked
candidate ends at `"B"`, not `"A"`. -/
theorem claim_C8_counterexample :
    processLoop envA [QRResult.mk "A", QRResult.mk "B"] (none, 0) ≠
      processLoop envA [QRResult.mk "A"] (none, 0) := by decide

/-- Claim C8 (amended): on each live scan attempt with a non-empty
result set, the controller iterates over every payload of the set in
order, applying the candidate/counter update for each payload with a
truthy decoded text and returning early only on confirmation — the
batch loop equals the text-level machine run on all truthy decoded
texts, not just the first. -/
theorem claim_C8 {Img : Type} (env : Env Img) (rs : List QRResult)
    (st : Option String × Nat) :
    processLoop env rs st = confirmLoop st (detTexts env rs) :=
  processLoop_eq_confirmLoop env rs st

/-- A layer whose decode call returns a non-empty batch turns `results`
truthy. -/
theorem truthyRes_some {rs : List QRResult} (h : rs ≠ []) :
    truthyRes (some rs) = true := by
  cases rs with
  | nil => exact absurd rfl h
  | cons a l => rfl

/-- A falsy layer keeps `results` falsy through its guarded attempt. -/
theorem tryDecode_falsy {Img : Type} (env : Env Img) (img : Img)
    (prev : Option (List QRResult)) (h : layerFalsy env img)
    (hprev : truthyRes prev = false) :
    truthyRes (tryDecode env img prev) = false := by
  rcases h with h | ⟨e, h⟩
  · simp [tryDecode, h, truthyRes]
  · simp [tryDecode, h, hprev]

/-- A successful layer decode overwrites `results` with its batch. -/
theorem tryDecode_hit {Img : Type} (env : Env Img) (img : Img)
    (prev : Option (List QRResult)) (rs : List QRResult)
    (h : decode env (some img) = .ok rs) : tryDecode env img prev = some rs := by
  simp [tryDecode, h]

/-- Counterexample for C4: in `envC` the decode primitive reports a
symbol only on the 45°-rotated variant of the layer-1 image of frame
`0`; the unrotated variants of all four layers decode to nothing, yet
the live scan attempt succeeds — so live mode does apply the rotation
sweep inside each layer, contrary to the claim. -/
theorem claim_C4_counterexample :
    scanAttempt envC 0 = some [QRResult.mk "R"] ∧
    envC.detect (variantImg envC (layer1Img envC 0) 0) = .ok [] ∧
    envC.detect (variantImg envC (layer2Img envC 0) 0) = .ok [] ∧
    envC.detect (variantImg envC (layer3Img envC 0) 0) = .ok [] ∧
    envC.detect (variantImg envC (layer4Img envC 0) 0) = .ok [] := by decide

/-- Claim C4 (amended): for every live scan attempt the fallback layers
are tried in the fixed order ROI-enhanced-color, ROI-enhanced-gray
(3-channel), ROI-binary (3-channel), full-frame-binary, stopping at the
first layer whose decode yields a non-empty result set — but each
layer's decode is the single-shot `decode`, which applies the full
five-angle rotation sweep internally. -/
theorem claim_C4 {Img : Type} (env : Env Img) (f : Img)
    (hroi : env.size (env.roiOf f) ≠ 0) :
    (∀ rs : List QRResult, rs ≠ [] →
        decode env (some (layer1Img env f)) = .ok rs →
        scanAttempt env f = some rs) ∧
    (∀ rs : List QRResult, rs ≠ [] →
        layerFalsy env (layer1Img env f) →
        decode env (some (layer2Img env f)) = .ok rs →
        scanAttempt env f = some rs) ∧
    (∀ rs : List QRResult, rs ≠ [] →
        layerFalsy env (layer1Img env f) → layerFalsy env (layer2Img env f) →
        decode env (some (layer3Img env f)) = .ok rs →
        scanAttempt env f = some rs) ∧
    (∀ rs : List QRResult, rs ≠ [] →
        layerFalsy env (layer1Img env f) → layerFalsy env (layer2Img env f) →
        layerFalsy env (layer3Img env f) →
        decode env (some (layer4Img env f)) = .ok rs →
        scanAttempt env f = some rs) ∧
    (layerFalsy env (layer1Img env f) → layerFalsy env (layer2Img env f) →
        layerFalsy env (layer3Img env f) → layerFalsy env (layer4Img env f) →
        truthyRes (scanAttempt env f) = false) := by
  refine ⟨?_, ?_, ?_, ?_, ?_⟩
  · intro rs hne h1
    have e1 := tryDecode_hit env (layer1Img env f) none rs h1
    simp [scanAttempt, hroi, e1, truthyRes_some hne]
  · intro rs hne hf1 h2
    have t1 := tryDecode_falsy env (layer1Img env f) none hf1 rfl
    have e2 := tryDecode_hit env (layer2Img env f)
      (tryDecode env (layer1Img env f) none) rs h2
    simp [scanAttempt, hroi, t1, e2, truthyRes_some hne]
  · intro rs hne hf1 hf2 h3
    have t1 := tryDecode_falsy env (layer1Img env f) none hf1 rfl
    have t2 := tryDecode_falsy env (layer2Img env f)
      (tryDecode env (layer1Img env f) none) hf2 t1
    have e3 := tryDecode_hit env (layer3Img env f)
      (tryDecode env (layer2Img env f) (tryDecode env (layer1Img env f) none)) rs h3
    simp [scanAttempt, hroi, t1, t2, e3, truthyRes_some hne]
  · intro rs hne hf1 hf2 hf3 h4
    have t1 := tryDecode_falsy env (layer1Img env f) none hf1 rfl
    have t2 := tryDecode_falsy env (layer2Img env f)
      (tryDecode env (layer1Img env f) none) hf2 t1
    have t3 := tryDecode_falsy env (layer3Img env f)
      (tryDecode env (layer2Img env f) (tryDecode env (layer1Img env f) none)) hf3 t2
    have e4 := tryDecode_hit env (layer4Img env f)
      (tryDecode env (layer3Img env f)
        (tryDecode env (layer2Img env f) (tryDecode env (layer1Img env f) none))) rs h4
    simp [scanAttempt, hroi, t1, t2, t3, e4, truthyRes_some hne]
  · intro hf1 hf2 hf3 hf4
    have t1 := tryDecode_falsy env (layer1Img env f) none hf1 rfl
    have t2 := tryDecode_falsy env (layer2Img env f)
      (tryDecode env (layer1Img env f) none) hf2 t1
    have t3 := tryDecode_falsy env (layer3Img env f)
      (tryDecode env (layer2Img env f) (tryDecode env (layer1Img env f) none)) hf3 t2
    have t4 := tryDecode_falsy env (layer4Img env f)
      (tryDecode env (layer3Img env f)
        (tryDecode env (layer2Img env f) (tryDecode env (layer1Img env f) none))) hf4 t3
    simp [scanAttempt, hroi, t1, t2, t3, t4]

/-- Witness for the amended C4: in `envC` layer 1's rotation-sweep
decode finds `"R"` and the attempt returns exactly that batch. -/
theorem claim_C4_witness :
    scanAttempt envC 0 = some [QRResult.mk "R"] :=
  (claim_C4 envC 0 (by decide)).1 [QRResult.mk "R"] (by decide) (by decide)

end QRSpec
